import Mathlib

/-!
# jarvis native hooks: volume control, window focus, module registration

A shallow embedding of `audio_endpoint.cpp`, `windows_focus.cpp` and
`bindings.cpp`.  Member functions become functions on an explicit object
state and an explicit operating-system state; every call into the operating
system is appended to a call log kept in that state, and a thrown C++
exception is an `Except.error` returned next to the state reached when it was
thrown.
-/

namespace jarvis

/-! ## Values shared by the audio model -/

/-- A `float` as the comparisons of the source see it: a finite value, an
infinity, or a NaN (every ordered comparison with a NaN is false). -/
inductive CFloat where
  | nan
  | negInf
  | fin (q : ℚ)
  | posInf
  deriving DecidableEq

/-- The C++ operator `<` on `float`. -/
def CFloat.lt : CFloat → CFloat → Bool
  | .nan, _ => false
  | _, .nan => false
  | .negInf, .negInf => false
  | .negInf, _ => true
  | .fin _, .negInf => false
  | .fin a, .fin b => decide (a < b)
  | .fin _, .posInf => true
  | .posInf, _ => false

/-- The C++ operator `>` on `float`. -/
def CFloat.gt (a b : CFloat) : Bool := CFloat.lt b a

/-- The C++ operator `<=` on `float`. -/
def CFloat.le : CFloat → CFloat → Bool
  | .nan, _ => false
  | _, .nan => false
  | .negInf, _ => true
  | .fin _, .negInf => false
  | .fin a, .fin b => decide (a ≤ b)
  | .fin _, .posInf => true
  | .posInf, .posInf => true
  | .posInf, _ => false

/-- A Windows `HRESULT`, a signed 32-bit status code. -/
abbrev HRESULT := Int

/-- The status code `S_OK`. -/
def S_OK : HRESULT := 0

/-- The status code `RPC_E_CHANGED_MODE` (0x80010106 read as signed). -/
def RPC_E_CHANGED_MODE : HRESULT := -2147417850

/-- The macro `FAILED(hr)`: the status code is negative. -/
def FAILED (hr : HRESULT) : Bool := decide (hr < 0)

/-- The address held by a COM interface pointer; a null pointer is `none` in
the fields that hold one. -/
abbrev Ptr := Nat

/-- The C++ exceptions the audio code throws.  A `runtime_error` built from
`HResultToString(hr)` keeps the status code in place of the system's text. -/
inductive Exn where
  | invalid_argument (what : String)
  | runtime_error (what : String) (hr : Option HRESULT)
  deriving DecidableEq

/-- One call into COM or Core Audio. -/
inductive OsCall where
  | CoInitializeEx
  | CoCreateInstance
  | GetDefaultAudioEndpoint (enumerator : Ptr)
  | Activate (device : Ptr)
  | Release (p : Ptr)
  | CoUninitialize
  | SetMasterVolumeLevelScalar (p : Ptr) (level : CFloat)
  | GetMasterVolumeLevelScalar (p : Ptr)
  | SetMute (p : Ptr) (muted : Bool)
  | GetMute (p : Ptr)
  deriving DecidableEq

/-- The operating system as the audio code sees it.  `script` lists the status
codes the next fallible calls will return, in order (`S_OK` once it is used
up); `live` holds one entry per outstanding COM reference, `comInit` counts
the COM initialisations of the thread that were not yet undone; `volume` and
`mute` are the state of the default render endpoint. -/
structure AudioOs where
  script : List HRESULT
  nextPtr : Ptr
  live : List Ptr
  comInit : Nat
  volume : CFloat
  mute : Bool
  calls : List OsCall

/-- The status code of the next fallible call. -/
def AudioOs.nextResult (os : AudioOs) : HRESULT × AudioOs :=
  match os.script with
  | [] => (S_OK, os)
  | hr :: rest => (hr, { os with script := rest })

/-- The call `CoInitializeEx(nullptr, COINIT_APARTMENTTHREADED)`: a call that
does not fail must later be balanced by `CoUninitialize`. -/
def CoInitializeEx (os : AudioOs) : HRESULT × AudioOs :=
  let (hr, os) := os.nextResult
  let os := { os with calls := os.calls ++ [OsCall.CoInitializeEx] }
  if FAILED hr then (hr, os) else (hr, { os with comInit := os.comInit + 1 })

/-- The call `CoUninitialize()`. -/
def CoUninitialize (os : AudioOs) : AudioOs :=
  { os with calls := os.calls ++ [OsCall.CoUninitialize], comInit := os.comInit - 1 }

/-- A call that hands out a new interface pointer on success and a null
pointer on failure. -/
def AudioOs.acquire (os : AudioOs) (call : OsCall) : HRESULT × Option Ptr × AudioOs :=
  let (hr, os) := os.nextResult
  let os := { os with calls := os.calls ++ [call] }
  if FAILED hr then (hr, none, os)
  else (hr, some os.nextPtr,
    { os with nextPtr := os.nextPtr + 1, live := os.live ++ [os.nextPtr] })

/-- The call `CoCreateInstance(__uuidof(MMDeviceEnumerator), ...)`. -/
def CoCreateInstance (os : AudioOs) : HRESULT × Option Ptr × AudioOs :=
  os.acquire OsCall.CoCreateInstance

/-- The call `IMMDeviceEnumerator::GetDefaultAudioEndpoint(eRender, eConsole, ...)`. -/
def GetDefaultAudioEndpoint (enumerator : Ptr) (os : AudioOs) : HRESULT × Option Ptr × AudioOs :=
  os.acquire (OsCall.GetDefaultAudioEndpoint enumerator)

/-- The call `IMMDevice::Activate(__uuidof(IAudioEndpointVolume), ...)`. -/
def Activate (device : Ptr) (os : AudioOs) : HRESULT × Option Ptr × AudioOs :=
  os.acquire (OsCall.Activate device)

/-- The call `IUnknown::Release()` on an interface pointer: one reference is
given back. -/
def Release (p : Ptr) (os : AudioOs) : AudioOs :=
  { os with calls := os.calls ++ [OsCall.Release p], live := os.live.erase p }

/-- The call `IAudioEndpointVolume::SetMasterVolumeLevelScalar(level, nullptr)`:
the endpoint stores the scalar when the call succeeds. -/
def SetMasterVolumeLevelScalar (p : Ptr) (level : CFloat) (os : AudioOs) : HRESULT × AudioOs :=
  let (hr, os) := os.nextResult
  let os := { os with calls := os.calls ++ [OsCall.SetMasterVolumeLevelScalar p level] }
  if FAILED hr then (hr, os) else (hr, { os with volume := level })

/-- The call `IAudioEndpointVolume::GetMasterVolumeLevelScalar(&level)`: the
out-parameter keeps the caller's value when the call fails. -/
def GetMasterVolumeLevelScalar (p : Ptr) (level : CFloat) (os : AudioOs) :
    HRESULT × CFloat × AudioOs :=
  let (hr, os) := os.nextResult
  let os := { os with calls := os.calls ++ [OsCall.GetMasterVolumeLevelScalar p] }
  if FAILED hr then (hr, level, os) else (hr, os.volume, os)

/-- The call `IAudioEndpointVolume::SetMute(muted, nullptr)`. -/
def SetMute (p : Ptr) (muted : Bool) (os : AudioOs) : HRESULT × AudioOs :=
  let (hr, os) := os.nextResult
  let os := { os with calls := os.calls ++ [OsCall.SetMute p muted] }
  if FAILED hr then (hr, os) else (hr, { os with mute := muted })

/-- The call `IAudioEndpointVolume::GetMute(&muted)`. -/
def GetMute (p : Ptr) (muted : Bool) (os : AudioOs) : HRESULT × Bool × AudioOs :=
  let (hr, os) := os.nextResult
  let os := { os with calls := os.calls ++ [OsCall.GetMute p] }
  if FAILED hr then (hr, muted, os) else (hr, os.mute, os)

/-! ## `audio_endpoint.cpp` -/

/-- The data members of `class AudioEndpoint`. -/
structure AudioEndpoint where
  deviceEnumerator_ : Option Ptr := none
  device_ : Option Ptr := none
  endpointVolume_ : Option Ptr := none
  comInitialized_ : Bool := false
  deriving DecidableEq

/-- The member function `AudioEndpoint::initialize`.  The object is returned
as it stands when the function returns or throws.  A call that succeeds never
hands out a null pointer; the two branches for one stand for the dereference
of a null `deviceEnumerator_` or `device_`, which the source does not guard. -/
def AudioEndpoint.initialize (self : AudioEndpoint) (os : AudioOs) :
    Except Exn Unit × AudioEndpoint × AudioOs :=
  let (hr, os) := CoInitializeEx os
  if FAILED hr && hr != RPC_E_CHANGED_MODE then
    (.error (.runtime_error "Failed to initialize COM: " (some hr)), self, os)
  else
    let self := { self with comInitialized_ := true }
    let (hr, p, os) := CoCreateInstance os
    let self := { self with deviceEnumerator_ := p }
    if FAILED hr then
      (.error (.runtime_error "Failed to create device enumerator: " (some hr)), self, os)
    else
      match self.deviceEnumerator_ with
      | none => (.error (.runtime_error "null deviceEnumerator_ dereferenced" none), self, os)
      | some enumerator =>
        let (hr, p, os) := GetDefaultAudioEndpoint enumerator os
        let self := { self with device_ := p }
        if FAILED hr then
          (.error (.runtime_error "Failed to get default audio endpoint: " (some hr)), self, os)
        else
          match self.device_ with
          | none => (.error (.runtime_error "null device_ dereferenced" none), self, os)
          | some device =>
            let (hr, p, os) := Activate device os
            let self := { self with endpointVolume_ := p }
            if FAILED hr then
              (.error (.runtime_error "Failed to activate endpoint volume: " (some hr)), self, os)
            else
              (.ok (), self, os)

/-- The constructor `AudioEndpoint::AudioEndpoint()`: the members take their
default initialisers and `initialize` runs.  When it throws, no object exists
afterwards and, the object never having been constructed, its destructor does
not run; what is left is the operating-system state. -/
def AudioEndpoint.new (os : AudioOs) : Except Exn AudioEndpoint × AudioOs :=
  match AudioEndpoint.initialize {} os with
  | (.ok (), self, os) => (.ok self, os)
  | (.error e, _, os) => (.error e, os)

/-- The member function `AudioEndpoint::cleanup`. -/
def AudioEndpoint.cleanup (self : AudioEndpoint) (os : AudioOs) : AudioEndpoint × AudioOs :=
  let (self, os) :=
    match self.endpointVolume_ with
    | some p => ({ self with endpointVolume_ := none }, Release p os)
    | none => (self, os)
  let (self, os) :=
    match self.device_ with
    | some p => ({ self with device_ := none }, Release p os)
    | none => (self, os)
  let (self, os) :=
    match self.deviceEnumerator_ with
    | some p => ({ self with deviceEnumerator_ := none }, Release p os)
    | none => (self, os)
  if self.comInitialized_ then
    ({ self with comInitialized_ := false }, CoUninitialize os)
  else
    (self, os)

/-- The member function `AudioEndpoint::setMasterVolume`. -/
def AudioEndpoint.setMasterVolume (self : AudioEndpoint) (level : CFloat) (os : AudioOs) :
    Except Exn Unit × AudioOs :=
  if CFloat.lt level (.fin 0) || CFloat.gt level (.fin 1) then
    (.error (.invalid_argument "Volume level must be between 0.0 and 1.0"), os)
  else
    match self.endpointVolume_ with
    | none => (.error (.runtime_error "Audio endpoint not initialized" none), os)
    | some p =>
      let (hr, os) := SetMasterVolumeLevelScalar p level os
      if FAILED hr then
        (.error (.runtime_error "Failed to set volume: " (some hr)), os)
      else
        (.ok (), os)

/-- The member function `AudioEndpoint::getMasterVolume`. -/
def AudioEndpoint.getMasterVolume (self : AudioEndpoint) (os : AudioOs) :
    Except Exn CFloat × AudioOs :=
  match self.endpointVolume_ with
  | none => (.error (.runtime_error "Audio endpoint not initialized" none), os)
  | some p =>
    let (hr, level, os) := GetMasterVolumeLevelScalar p (.fin 0) os
    if FAILED hr then
      (.error (.runtime_error "Failed to get volume: " (some hr)), os)
    else
      (.ok level, os)

/-- The member function `AudioEndpoint::setMute`. -/
def AudioEndpoint.setMute (self : AudioEndpoint) (muted : Bool) (os : AudioOs) :
    Except Exn Unit × AudioOs :=
  match self.endpointVolume_ with
  | none => (.error (.runtime_error "Audio endpoint not initialized" none), os)
  | some p =>
    let (hr, os) := SetMute p muted os
    if FAILED hr then
      (.error (.runtime_error "Failed to set mute: " (some hr)), os)
    else
      (.ok (), os)

/-- The member function `AudioEndpoint::getMute`. -/
def AudioEndpoint.getMute (self : AudioEndpoint) (os : AudioOs) :
    Except Exn Bool × AudioOs :=
  match self.endpointVolume_ with
  | none => (.error (.runtime_error "Audio endpoint not initialized" none), os)
  | some p =>
    let (hr, muted, os) := GetMute p false os
    if FAILED hr then
      (.error (.runtime_error "Failed to get mute state: " (some hr)), os)
    else
      (.ok muted, os)

/-! ## `windows_focus.cpp` -/

/-- A window handle; 0 is the null handle. -/
abbrev HWND := Nat

/-- A thread identifier. -/
abbrev DWORD := Nat

/-- A `std::string`: its bytes. -/
abbrev CxxString := List Nat

/-- A `std::wstring`, or the wide text the system keeps: UTF-16 code units. -/
abbrev WString := List Nat

/-- One call into the Win32 window API. -/
inductive WinCall where
  | EnumWindows
  | IsWindowVisible (hwnd : HWND)
  | GetWindowTextLengthW (hwnd : HWND)
  | GetWindowTextW (hwnd : HWND) (nMaxCount : Nat)
  | GetClassNameW (hwnd : HWND) (nMaxCount : Nat)
  | IsWindow (hwnd : HWND)
  | IsIconic (hwnd : HWND)
  | ShowWindow (hwnd : HWND)
  | SetForegroundWindow (hwnd : HWND)
  | GetCurrentThreadId
  | GetWindowThreadProcessId (hwnd : HWND)
  | AttachThreadInput (idAttach idAttachTo : DWORD) (fAttach : Bool)
  | GetForegroundWindow
  deriving DecidableEq

/-- What the system does with one `SetForegroundWindow` request: the value it
returns and whether the window really becomes the foreground window. -/
structure FgOutcome where
  ret : Bool
  granted : Bool
  deriving DecidableEq

/-- The window system as the code sees it.  `topLevel` is the sequence of
top-level windows in the order `EnumWindows` reports them; the attributes of a
window are functions of its handle; `fgScript` lists what the system will do
with the next `SetForegroundWindow` requests, in order (denied once it is used
up); `attached` holds one pair of threads for every attachment of thread input
made and not yet undone. -/
structure WinOs where
  topLevel : List HWND
  isWindow : HWND → Bool
  visible : HWND → Bool
  text : HWND → WString
  className : HWND → WString
  iconic : HWND → Bool
  thread : HWND → DWORD
  currentThread : DWORD
  foreground : HWND
  attached : List (DWORD × DWORD)
  fgScript : List FgOutcome
  calls : List WinCall

/-- The state after one more logged call. -/
def WinOs.log (os : WinOs) (c : WinCall) : WinOs :=
  { os with calls := os.calls ++ [c] }

/-- The call `IsWindowVisible(hwnd)`. -/
def IsWindowVisible (hwnd : HWND) (os : WinOs) : Bool × WinOs :=
  (os.visible hwnd, os.log (.IsWindowVisible hwnd))

/-- The call `GetWindowTextLengthW(hwnd)`. -/
def GetWindowTextLengthW (hwnd : HWND) (os : WinOs) : Nat × WinOs :=
  ((os.text hwnd).length, os.log (.GetWindowTextLengthW hwnd))

/-- The call `GetWindowTextW(hwnd, buffer, nMaxCount)`: at most
`nMaxCount - 1` code units are copied. -/
def GetWindowTextW (hwnd : HWND) (nMaxCount : Nat) (os : WinOs) : WString × WinOs :=
  ((os.text hwnd).take (nMaxCount - 1), os.log (.GetWindowTextW hwnd nMaxCount))

/-- The call `GetClassNameW(hwnd, buffer, nMaxCount)`. -/
def GetClassNameW (hwnd : HWND) (nMaxCount : Nat) (os : WinOs) : WString × WinOs :=
  ((os.className hwnd).take (nMaxCount - 1), os.log (.GetClassNameW hwnd nMaxCount))

/-- The UTF-8 bytes of one code point. -/
def utf8Encode (cp : Nat) : CxxString :=
  if cp < 0x80 then [cp]
  else if cp < 0x800 then [0xC0 + cp / 64, 0x80 + cp % 64]
  else if cp < 0x10000 then [0xE0 + cp / 4096, 0x80 + cp / 64 % 64, 0x80 + cp % 64]
  else [0xF0 + cp / 262144, 0x80 + cp / 4096 % 64, 0x80 + cp / 64 % 64, 0x80 + cp % 64]

/-- UTF-16 code units to UTF-8 bytes; an unpaired surrogate becomes U+FFFD. -/
def utf16ToUtf8 : WString → CxxString
  | [] => []
  | [u] => utf8Encode (if 0xD800 ≤ u ∧ u < 0xE000 then 0xFFFD else u)
  | hi :: lo :: rest =>
    if 0xD800 ≤ hi ∧ hi < 0xDC00 ∧ 0xDC00 ≤ lo ∧ lo < 0xE000 then
      utf8Encode (0x10000 + (hi - 0xD800) * 1024 + (lo - 0xDC00)) ++ utf16ToUtf8 rest
    else
      utf8Encode (if 0xD800 ≤ hi ∧ hi < 0xE000 then 0xFFFD else hi) ++ utf16ToUtf8 (lo :: rest)

/-- The pair of calls `WideCharToMultiByte(CP_UTF8, 0, src, -1, ...)` that
sizes and fills a `std::string`: the text up to the first NUL, in UTF-8,
without the terminator. -/
def WideCharToMultiByte (src : WString) : CxxString :=
  utf16ToUtf8 (src.takeWhile (fun u => u != 0))

/-- The static member function `WindowManager::getWindowTitle`. -/
def getWindowTitle (hwnd : HWND) (os : WinOs) : CxxString × WinOs :=
  let (length, os) := GetWindowTextLengthW hwnd os
  if length = 0 then
    ([], os)
  else
    let (wideTitle, os) := GetWindowTextW hwnd (length + 1) os
    (WideCharToMultiByte wideTitle, os)

/-- The static member function `WindowManager::getWindowClassName`. -/
def getWindowClassName (hwnd : HWND) (os : WinOs) : CxxString × WinOs :=
  let (className, os) := GetClassNameW hwnd 256 os
  (WideCharToMultiByte className, os)

/-- The function `std::tolower` in the default "C" locale, on a byte. -/
def tolower (c : Nat) : Nat :=
  if 65 ≤ c ∧ c ≤ 90 then c + 32 else c

/-- The search of `std::string::find(str)`: the lowest position at which `str`
occurs in what is left of the string, counted from `xpos`; `none` is `npos`. -/
def findFrom (str : CxxString) : CxxString → Nat → Option Nat
  | [], xpos => if str.isEmpty then some xpos else none
  | c :: t, xpos => if str.isPrefixOf (c :: t) then some xpos else findFrom str t (xpos + 1)

/-- The member function `std::string::find(str)`, with `none` for `npos`. -/
def std_string_find (s str : CxxString) : Option Nat :=
  findFrom str s 0

/-- The static member function `WindowManager::caseInsensitiveSearch`. -/
def caseInsensitiveSearch (haystack needle : CxxString) : Bool :=
  let haystackLower := haystack.map tolower
  let needleLower := needle.map tolower
  (std_string_find haystackLower needleLower).isSome

/-- The struct `WindowInfo`. -/
structure WindowInfo where
  handle : HWND
  title : CxxString
  className : CxxString
  isVisible : Bool
  deriving DecidableEq

/-- The callback `WindowManager::enumWindowsProc`; the vector behind `lParam`
is passed and returned. -/
def enumWindowsProc (hwnd : HWND) (windows : List WindowInfo) (os : WinOs) :
    Bool × List WindowInfo × WinOs :=
  let (vis, os) := IsWindowVisible hwnd os
  if !vis then
    (true, windows, os)
  else
    let (title, os) := getWindowTitle hwnd os
    if title.isEmpty then
      (true, windows, os)
    else
      let (className, os) := getWindowClassName hwnd os
      (true, windows ++ [{ handle := hwnd, title := title, className := className,
                           isVisible := true }], os)

/-- The walk of `EnumWindows` over the top-level windows: the callback is
called on each in turn until it returns `FALSE`. -/
def enumLoop (lpEnumFunc : HWND → List WindowInfo → WinOs → Bool × List WindowInfo × WinOs) :
    List HWND → List WindowInfo → WinOs → List WindowInfo × WinOs
  | [], lParam, os => (lParam, os)
  | hwnd :: rest, lParam, os =>
    match lpEnumFunc hwnd lParam os with
    | (true, lParam, os) => enumLoop lpEnumFunc rest lParam os
    | (false, lParam, os) => (lParam, os)

/-- The call `EnumWindows(lpEnumFunc, lParam)`. -/
def EnumWindows (lpEnumFunc : HWND → List WindowInfo → WinOs → Bool × List WindowInfo × WinOs)
    (lParam : List WindowInfo) (os : WinOs) : List WindowInfo × WinOs :=
  enumLoop lpEnumFunc os.topLevel lParam (os.log .EnumWindows)

/-- The member function `WindowManager::enumerateWindows`. -/
def enumerateWindows (os : WinOs) : List WindowInfo × WinOs :=
  EnumWindows enumWindowsProc [] os

/-- The call `GetForegroundWindow()`. -/
def GetForegroundWindow (os : WinOs) : HWND × WinOs :=
  (os.foreground, os.log .GetForegroundWindow)

/-- The member function `WindowManager::getForegroundWindow`. -/
def getForegroundWindow (os : WinOs) : WindowInfo × WinOs :=
  let (hwnd, os) := GetForegroundWindow os
  let (title, os) := getWindowTitle hwnd os
  let (className, os) := getWindowClassName hwnd os
  let (vis, os) := IsWindowVisible hwnd os
  ({ handle := hwnd, title := title, className := className, isVisible := vis }, os)

/-- The call `IsWindow(hwnd)`. -/
def IsWindow (hwnd : HWND) (os : WinOs) : Bool × WinOs :=
  (os.isWindow hwnd, os.log (.IsWindow hwnd))

/-- The call `IsIconic(hwnd)`. -/
def IsIconic (hwnd : HWND) (os : WinOs) : Bool × WinOs :=
  (os.iconic hwnd, os.log (.IsIconic hwnd))

/-- The call `ShowWindow(hwnd, SW_RESTORE)`: the window is no longer minimized. -/
def ShowWindow (hwnd : HWND) (os : WinOs) : WinOs :=
  { os with iconic := fun h => if h = hwnd then false else os.iconic h,
            calls := os.calls ++ [.ShowWindow hwnd] }

/-- The call `SetForegroundWindow(hwnd)`: the system decides. -/
def SetForegroundWindow (hwnd : HWND) (os : WinOs) : Bool × WinOs :=
  match os.fgScript with
  | [] => (false, os.log (.SetForegroundWindow hwnd))
  | o :: rest =>
    (o.ret, { os with fgScript := rest,
                      foreground := if o.granted then hwnd else os.foreground,
                      calls := os.calls ++ [.SetForegroundWindow hwnd] })

/-- The call `GetCurrentThreadId()`. -/
def GetCurrentThreadId (os : WinOs) : DWORD × WinOs :=
  (os.currentThread, os.log .GetCurrentThreadId)

/-- The call `GetWindowThreadProcessId(hwnd, nullptr)`. -/
def GetWindowThreadProcessId (hwnd : HWND) (os : WinOs) : DWORD × WinOs :=
  (os.thread hwnd, os.log (.GetWindowThreadProcessId hwnd))

/-- The call `AttachThreadInput(idAttach, idAttachTo, fAttach)`.  The system
keeps one entry for every attachment made and not yet undone: attaching adds
an entry for the pair, detaching takes one entry of the pair away and fails
when there is none; a thread can be neither attached to nor detached from
itself. -/
def AttachThreadInput (idAttach idAttachTo : DWORD) (fAttach : Bool) (os : WinOs) :
    Bool × WinOs :=
  let os := os.log (.AttachThreadInput idAttach idAttachTo fAttach)
  if idAttach = idAttachTo then (false, os)
  else if fAttach then
    (true, { os with attached := (idAttach, idAttachTo) :: os.attached })
  else if (idAttach, idAttachTo) ∈ os.attached then
    (true, { os with attached := os.attached.erase (idAttach, idAttachTo) })
  else (false, os)

/-- The member function `WindowManager::setForeground`. -/
def setForeground (hwnd : HWND) (os : WinOs) : Bool × WinOs :=
  let (live, os) := IsWindow hwnd os
  if !live then
    (false, os)
  else
    let (minimized, os) := IsIconic hwnd os
    let os := if minimized then ShowWindow hwnd os else os
    let (ok, os) := SetForegroundWindow hwnd os
    let os :=
      if !ok then
        let (currentThread, os) := GetCurrentThreadId os
        let (windowThread, os) := GetWindowThreadProcessId hwnd os
        let os := (AttachThreadInput currentThread windowThread true os).2
        let os := (SetForegroundWindow hwnd os).2
        (AttachThreadInput currentThread windowThread false os).2
      else os
    let (fg, os) := GetForegroundWindow os
    (fg == hwnd, os)

/-- The test in the loop body of `WindowManager::focusWindowByTitle`: the
value of `matches` for one window. -/
def titleMatches (titleSubstring : CxxString) (caseSensitive : Bool) (window : WindowInfo) :
    Bool :=
  if caseSensitive then
    (std_string_find window.title titleSubstring).isSome
  else
    caseInsensitiveSearch window.title titleSubstring

/-- The range-for loop of `WindowManager::focusWindowByTitle` with the
`return false` that follows it. -/
def focusLoop (titleSubstring : CxxString) (caseSensitive : Bool) :
    List WindowInfo → WinOs → Bool × WinOs
  | [], os => (false, os)
  | window :: rest, os =>
    if titleMatches titleSubstring caseSensitive window then
      setForeground window.handle os
    else
      focusLoop titleSubstring caseSensitive rest os

/-- The member function `WindowManager::focusWindowByTitle`. -/
def focusWindowByTitle (titleSubstring : CxxString) (caseSensitive : Bool) (os : WinOs) :
    Bool × WinOs :=
  let (windows, os) := enumerateWindows os
  focusLoop titleSubstring caseSensitive windows os

/-! ## `bindings.cpp` -/

/-- The globals of the binding layer; `g_windowManager` has no data members. -/
structure Bindings where
  g_audioEndpoint : Option AudioEndpoint := none
  deriving DecidableEq

/-- The function `ensureAudioEndpoint`.  When the constructor throws,
`make_unique` throws and the global keeps its null pointer. -/
def ensureAudioEndpoint (g : Bindings) (os : AudioOs) : Except Exn Unit × Bindings × AudioOs :=
  match g.g_audioEndpoint with
  | some _ => (.ok (), g, os)
  | none =>
    match AudioEndpoint.new os with
    | (.ok endpoint, os) => (.ok (), { g with g_audioEndpoint := some endpoint }, os)
    | (.error e, os) => (.error e, g, os)

/-- The function `pySetMasterVolume`. -/
def pySetMasterVolume (level : CFloat) (g : Bindings) (os : AudioOs) :
    Except Exn Unit × Bindings × AudioOs :=
  match ensureAudioEndpoint g os with
  | (.error e, g, os) => (.error e, g, os)
  | (.ok (), g, os) =>
    match g.g_audioEndpoint with
    | none => (.error (.runtime_error "null g_audioEndpoint dereferenced" none), g, os)
    | some endpoint =>
      let (r, os) := endpoint.setMasterVolume level os
      (r, g, os)

/-- The function `pyGetMasterVolume`. -/
def pyGetMasterVolume (g : Bindings) (os : AudioOs) : Except Exn CFloat × Bindings × AudioOs :=
  match ensureAudioEndpoint g os with
  | (.error e, g, os) => (.error e, g, os)
  | (.ok (), g, os) =>
    match g.g_audioEndpoint with
    | none => (.error (.runtime_error "null g_audioEndpoint dereferenced" none), g, os)
    | some endpoint =>
      let (r, os) := endpoint.getMasterVolume os
      (r, g, os)

/-- The function `pySetMute`. -/
def pySetMute (muted : Bool) (g : Bindings) (os : AudioOs) :
    Except Exn Unit × Bindings × AudioOs :=
  match ensureAudioEndpoint g os with
  | (.error e, g, os) => (.error e, g, os)
  | (.ok (), g, os) =>
    match g.g_audioEndpoint with
    | none => (.error (.runtime_error "null g_audioEndpoint dereferenced" none), g, os)
    | some endpoint =>
      let (r, os) := endpoint.setMute muted os
      (r, g, os)

/-- The function `pyGetMute`. -/
def pyGetMute (g : Bindings) (os : AudioOs) : Except Exn Bool × Bindings × AudioOs :=
  match ensureAudioEndpoint g os with
  | (.error e, g, os) => (.error e, g, os)
  | (.ok (), g, os) =>
    match g.g_audioEndpoint with
    | none => (.error (.runtime_error "null g_audioEndpoint dereferenced" none), g, os)
    | some endpoint =>
      let (r, os) := endpoint.getMute os
      (r, g, os)

/-- The function `pyFocusWindow`. -/
def pyFocusWindow (title : CxxString) (caseSensitive : Bool) (os : WinOs) : Bool × WinOs :=
  focusWindowByTitle title caseSensitive os

/-- What a name of the module is bound to by `m.def`: one of the six
functions above, or a lambda whose body is `throw std::runtime_error(what)`. -/
inductive PyFunction where
  | pySetMasterVolume
  | pyGetMasterVolume
  | pySetMute
  | pyGetMute
  | pyFocusWindow
  | pyEnumerateWindows
  | throwing (what : String)
  deriving DecidableEq

/-- The module object once `PYBIND11_MODULE` has run: the `m.def` entries and
the `m.attr` entries, each in source order. -/
structure PyModule where
  doc : String
  defs : List (String × PyFunction)
  attrs : List (String × String)
  deriving DecidableEq

/-- The body of `PYBIND11_MODULE(jarvis_native, m)`; `win32` says whether the
macro `_WIN32` is defined for the build. -/
def jarvis_native (win32 : Bool) : PyModule :=
  if win32 then
    { doc := "Jarvis native C++ hooks for system control"
      defs := [("set_master_volume", .pySetMasterVolume),
               ("get_master_volume", .pyGetMasterVolume),
               ("set_mute", .pySetMute),
               ("get_mute", .pyGetMute),
               ("focus_window", .pyFocusWindow),
               ("enumerate_windows", .pyEnumerateWindows)]
      attrs := [("__version__", "0.1.0"), ("platform", "Windows")] }
  else
    { doc := "Jarvis native C++ hooks for system control"
      defs := [("set_master_volume", .throwing "Not implemented on this platform"),
               ("get_master_volume", .throwing "Not implemented on this platform"),
               ("focus_window", .throwing "Not implemented on this platform")]
      attrs := [("__version__", "0.1.0"), ("platform", "Unsupported")] }

/-- What the host runtime sees when it calls `jarvis_native.<name>(...)` on a
build without `_WIN32`: no such attribute, the exception a stub throws, or a
native function being entered. -/
inductive CallOutcome where
  | noSuchAttribute
  | raised (e : Exn)
  | entered (f : PyFunction)
  deriving DecidableEq

/-- The lookup of a name in the module followed by the call. -/
def PyModule.call (m : PyModule) (name : String) : CallOutcome :=
  match m.defs.lookup name with
  | none => .noSuchAttribute
  | some (.throwing what) => .raised (.runtime_error what none)
  | some f => .entered f

/-! ## Vocabulary of the statements -/

/-- The code units of an ASCII literal: its bytes as a `std::string`, and
equally its UTF-16 code units as window text. -/
def ascii (s : String) : List Nat :=
  s.toList.map Char.toNat

/-- The title `getWindowTitle` computes for a window. -/
def titleOf (os : WinOs) (hwnd : HWND) : CxxString :=
  (getWindowTitle hwnd os).1

/-- The class name `getWindowClassName` computes for a window. -/
def classOf (os : WinOs) (hwnd : HWND) : CxxString :=
  (getWindowClassName hwnd os).1

/-- A window is visible and its title is not empty. -/
def qualifies (os : WinOs) (hwnd : HWND) : Bool :=
  os.visible hwnd && !(titleOf os hwnd).isEmpty

/-- The record `enumWindowsProc` builds for a window it keeps. -/
def infoOf (os : WinOs) (hwnd : HWND) : WindowInfo :=
  { handle := hwnd, title := titleOf os hwnd, className := classOf os hwnd, isVisible := true }

/-- The calls `getWindowTitle` makes for a window. -/
def titleCalls (os : WinOs) (hwnd : HWND) : List WinCall :=
  WinCall.GetWindowTextLengthW hwnd ::
    (if (os.text hwnd).length = 0 then []
     else [WinCall.GetWindowTextW hwnd ((os.text hwnd).length + 1)])

/-- The calls one run of `enumWindowsProc` makes for a window. -/
def procCalls (os : WinOs) (hwnd : HWND) : List WinCall :=
  WinCall.IsWindowVisible hwnd ::
    (if os.visible hwnd then
      titleCalls os hwnd ++
        (if (titleOf os hwnd).isEmpty then [] else [WinCall.GetClassNameW hwnd 256])
     else [])

/-- The calls `enumerateWindows` makes. -/
def enumCalls (os : WinOs) : List WinCall :=
  WinCall.EnumWindows :: os.topLevel.flatMap (procCalls os)

/-- A logged call is a foreground request. -/
def WinCall.isForegroundRequest : WinCall → Bool
  | .SetForegroundWindow _ => true
  | _ => false

/-- The log of `os2` is the log of `os1` followed by calls among which every
foreground request is for `hwnd`. -/
def OnlyRequests (hwnd : HWND) (os1 os2 : WinOs) : Prop :=
  ∃ delta, os2.calls = os1.calls ++ delta
    ∧ ∀ c ∈ delta, c.isForegroundRequest = true → c = WinCall.SetForegroundWindow hwnd

/-- Every status code the system has in store is a success: all calls into the
system succeed. -/
def AllOk (os : AudioOs) : Prop :=
  ∀ hr ∈ os.script, FAILED hr = false

/-- The releases `cleanup` owes for a controller state, in the order of the
source. -/
def owedReleases (self : AudioEndpoint) : List OsCall :=
  self.endpointVolume_.toList.map OsCall.Release
    ++ self.device_.toList.map OsCall.Release
    ++ self.deviceEnumerator_.toList.map OsCall.Release
    ++ (if self.comInitialized_ then [OsCall.CoUninitialize] else [])

/-- A logged call attaches or detaches thread input. -/
def WinCall.isAttach : WinCall → Bool
  | .AttachThreadInput _ _ _ => true
  | _ => false

/-- The value the direct `SetForegroundWindow` request of `setForeground`
returns in a state: the return value of the next scripted outcome. -/
def directReturn (os : WinOs) : Bool :=
  match os.fgScript with
  | [] => false
  | o :: _ => o.ret

/-- The pair of threads the fallback of `setForeground` attaches: the calling
thread and the thread of the window. -/
def fallbackPair (hwnd : HWND) (os : WinOs) : DWORD × DWORD :=
  (os.currentThread, os.thread hwnd)

/-- The calls `setForeground` makes for a live window, in order: the two
tests, the restore of a minimized window, the direct request, the fallback
when the direct request returns `FALSE`, and the final query. -/
def setForegroundCalls (hwnd : HWND) (os : WinOs) : List WinCall :=
  [WinCall.IsWindow hwnd, WinCall.IsIconic hwnd]
    ++ (if os.iconic hwnd = true then [WinCall.ShowWindow hwnd] else [])
    ++ [WinCall.SetForegroundWindow hwnd]
    ++ (if directReturn os = true then []
        else [WinCall.GetCurrentThreadId, WinCall.GetWindowThreadProcessId hwnd,
              WinCall.AttachThreadInput os.currentThread (os.thread hwnd) true,
              WinCall.SetForegroundWindow hwnd,
              WinCall.AttachThreadInput os.currentThread (os.thread hwnd) false])
    ++ [WinCall.GetForegroundWindow]

/-! ## Sample states -/

/-- The status code `E_FAIL` (0x80004005 read as signed). -/
def E_FAIL : HRESULT := -2147467259

/-- An audio system on which nothing was acquired yet and every call
succeeds. -/
def quietSystem : AudioOs where
  script := []
  nextPtr := 1
  live := []
  comInit := 0
  volume := .fin 1
  mute := false
  calls := []

/-- The controller a successful construction on `quietSystem` yields. -/
def readyEndpoint : AudioEndpoint where
  deviceEnumerator_ := some 1
  device_ := some 2
  endpointVolume_ := some 3
  comInitialized_ := true

/-- The audio system as that construction leaves it. -/
def readySystem : AudioOs :=
  (AudioEndpoint.new quietSystem).2

/-- An audio system on which COM cannot be initialised. -/
def noComSystem : AudioOs :=
  { quietSystem with script := [E_FAIL] }

/-- An audio system on which COM initialises and no device enumerator can be
created. -/
def noEnumeratorSystem : AudioOs :=
  { quietSystem with script := [S_OK, E_FAIL] }

/-- An audio system that has a device enumerator and no default render
endpoint. -/
def noDeviceSystem : AudioOs :=
  { quietSystem with script := [S_OK, S_OK, E_FAIL] }

/-- An audio system whose default render endpoint cannot activate its volume
interface. -/
def noVolumeSystem : AudioOs :=
  { quietSystem with script := [S_OK, S_OK, S_OK, E_FAIL] }



/-- A desktop with four top-level windows: an editor, a hidden window, a
window without a title and a second editor; every foreground request is
denied. -/
def sampleDesktop : WinOs where
  topLevel := [10, 11, 12, 13]
  isWindow := fun h => decide (10 ≤ h)
  visible := fun h => h != 11
  text := fun h =>
    if h = 10 then ascii "My Editor" else if h = 12 then [] else ascii "Another Editor"
  className := fun _ => ascii "Frame"
  iconic := fun h => h == 10
  thread := fun h => h + 100
  currentThread := 1
  foreground := 13
  attached := []
  fgScript := []
  calls := []

/-- A desktop whose only top-level window is titled "My Editor"; the first
foreground request is granted. -/
def editorDesktop : WinOs where
  topLevel := [10]
  isWindow := fun h => h == 10
  visible := fun _ => true
  text := fun _ => ascii "My Editor"
  className := fun _ => ascii "Frame"
  iconic := fun _ => false
  thread := fun _ => 7
  currentThread := 1
  foreground := 0
  attached := []
  fgScript := [{ ret := true, granted := true }]
  calls := []

/-- The sample desktop at a moment when the calling thread is already attached
to the thread of the first editor. -/
def attachedDesktop : WinOs :=
  { sampleDesktop with attached := [(1, 110)] }

/-! ## Theorems -/

/-- C1. For every level with `level < 0.0` or `level > 1.0` and every
controller state (volume handle present or null), `setMasterVolume` throws
`invalid_argument`, never `runtime_error`, and returns the operating-system
state it was given: no call is logged and the stored volume and mute flag are
the ones from before. -/
theorem setMasterVolume_out_of_range (self : AudioEndpoint) (level : CFloat) (os : AudioOs)
    (h : CFloat.lt level (.fin 0) = true ∨ CFloat.gt level (.fin 1) = true) :
    self.setMasterVolume level os
        = (.error (.invalid_argument "Volume level must be between 0.0 and 1.0"), os)
      ∧ (∀ what hr, (self.setMasterVolume level os).1 ≠ .error (.runtime_error what hr))
      ∧ (self.setMasterVolume level os).2.calls = os.calls
      ∧ (self.setMasterVolume level os).2.volume = os.volume
      ∧ (self.setMasterVolume level os).2.mute = os.mute := by
  have hc : (CFloat.lt level (.fin 0) || CFloat.gt level (.fin 1)) = true := by
    rcases h with h | h <;> simp [h]
  have e : self.setMasterVolume level os
      = (.error (.invalid_argument "Volume level must be between 0.0 and 1.0"), os) := by
    simp only [AudioEndpoint.setMasterVolume, hc, if_true]
  rw [e]
  refine ⟨rfl, ?_, rfl, rfl, rfl⟩
  intro what hr hne
  cases hne

/-- Witness for C1 at level 2.0, on a controller whose volume handle is null. -/
theorem setMasterVolume_out_of_range_witness :
    ({} : AudioEndpoint).setMasterVolume (.fin 2) quietSystem
        = (.error (.invalid_argument "Volume level must be between 0.0 and 1.0"), quietSystem)
      ∧ (∀ what hr, (({} : AudioEndpoint).setMasterVolume (.fin 2) quietSystem).1
            ≠ .error (.runtime_error what hr))
      ∧ (({} : AudioEndpoint).setMasterVolume (.fin 2) quietSystem).2.calls = quietSystem.calls
      ∧ (({} : AudioEndpoint).setMasterVolume (.fin 2) quietSystem).2.volume
          = quietSystem.volume
      ∧ (({} : AudioEndpoint).setMasterVolume (.fin 2) quietSystem).2.mute = quietSystem.mute :=
  setMasterVolume_out_of_range {} (.fin 2) quietSystem (Or.inr (by decide))


/-! ### Window enumeration -/

theorem titleOf_calls (os : WinOs) (c : List WinCall) (hwnd : HWND) :
    titleOf { os with calls := c } hwnd = titleOf os hwnd := by
  simp only [titleOf, getWindowTitle, GetWindowTextLengthW, GetWindowTextW, WinOs.log]
  by_cases h : (os.text hwnd).length = 0 <;> simp [h]

theorem titleCalls_calls (os : WinOs) (c : List WinCall) (hwnd : HWND) :
    titleCalls { os with calls := c } hwnd = titleCalls os hwnd := rfl

theorem getWindowTitle_eq (hwnd : HWND) (os : WinOs) :
    getWindowTitle hwnd os
      = (titleOf os hwnd, { os with calls := os.calls ++ titleCalls os hwnd }) := by
  unfold titleOf getWindowTitle titleCalls GetWindowTextLengthW GetWindowTextW WinOs.log
  by_cases h : (os.text hwnd).length = 0 <;> simp [h]

theorem getWindowClassName_eq (hwnd : HWND) (os : WinOs) :
    getWindowClassName hwnd os
      = (classOf os hwnd, { os with calls := os.calls ++ [WinCall.GetClassNameW hwnd 256] }) := by
  simp [classOf, getWindowClassName, GetClassNameW, WinOs.log]

theorem enumWindowsProc_eq (os : WinOs) (hwnd : HWND) (acc : List WindowInfo)
    (c : List WinCall) :
    enumWindowsProc hwnd acc { os with calls := c }
      = (true, acc ++ (if qualifies os hwnd then [infoOf os hwnd] else []),
          { os with calls := c ++ procCalls os hwnd }) := by
  unfold enumWindowsProc
  simp only [IsWindowVisible, WinOs.log]
  by_cases hv : os.visible hwnd = true
  · simp only [hv, Bool.not_true, Bool.false_eq_true, if_false]
    rw [getWindowTitle_eq]
    simp only [titleOf_calls, titleCalls_calls]
    by_cases ht : (titleOf os hwnd).isEmpty = true
    · simp [qualifies, procCalls, hv, ht]
    · simp only [ht, if_false]
      rw [getWindowClassName_eq]
      simp [qualifies, procCalls, infoOf, hv, ht, classOf, getWindowClassName, GetClassNameW,
        WinOs.log]
  · simp [qualifies, procCalls, hv]

theorem enumLoop_eq (os : WinOs) :
    ∀ (l : List HWND) (acc : List WindowInfo) (c : List WinCall),
      enumLoop enumWindowsProc l acc { os with calls := c }
        = (acc ++ (l.filter (qualifies os)).map (infoOf os),
            { os with calls := c ++ l.flatMap (procCalls os) }) := by
  intro l
  induction l with
  | nil => intro acc c; simp [enumLoop]
  | cons hwnd rest ih =>
    intro acc c
    rw [enumLoop, enumWindowsProc_eq]
    simp only []
    rw [ih]
    by_cases hq : qualifies os hwnd = true
    · simp [hq, List.filter_cons]
    · simp [hq, List.filter_cons]

theorem enumerateWindows_eq (os : WinOs) :
    enumerateWindows os
      = ((os.topLevel.filter (qualifies os)).map (infoOf os),
          { os with calls := os.calls ++ enumCalls os }) := by
  unfold enumerateWindows EnumWindows WinOs.log
  have h := enumLoop_eq os os.topLevel [] (os.calls ++ [WinCall.EnumWindows])
  simp only [List.nil_append] at h
  rw [h]
  simp [enumCalls]

/-! ### Foreground requests -/

theorem OnlyRequests_refl (hwnd : HWND) (os : WinOs) : OnlyRequests hwnd os os :=
  ⟨[], by simp, by simp⟩

theorem OnlyRequests_trans {hwnd : HWND} {os1 os2 os3 : WinOs}
    (h12 : OnlyRequests hwnd os1 os2) (h23 : OnlyRequests hwnd os2 os3) :
    OnlyRequests hwnd os1 os3 := by
  obtain ⟨d1, e1, p1⟩ := h12
  obtain ⟨d2, e2, p2⟩ := h23
  refine ⟨d1 ++ d2, by rw [e2, e1, List.append_assoc], ?_⟩
  intro c hc
  rcases List.mem_append.1 hc with h | h
  · exact p1 c h
  · exact p2 c h

theorem OnlyRequests_log (hwnd : HWND) (os : WinOs) (c : WinCall)
    (hc : c.isForegroundRequest = true → c = WinCall.SetForegroundWindow hwnd) :
    OnlyRequests hwnd os (os.log c) :=
  ⟨[c], rfl, by simpa using hc⟩

theorem ShowWindow_only (hwnd : HWND) (os : WinOs) :
    OnlyRequests hwnd os (ShowWindow hwnd os) :=
  ⟨[WinCall.ShowWindow hwnd], rfl, by simp [WinCall.isForegroundRequest]⟩

theorem SetForegroundWindow_only (hwnd : HWND) (os : WinOs) :
    OnlyRequests hwnd os (SetForegroundWindow hwnd os).2 := by
  unfold SetForegroundWindow
  rcases os.fgScript with _ | ⟨o, rest⟩
  · exact ⟨[WinCall.SetForegroundWindow hwnd], rfl, by simp⟩
  · exact ⟨[WinCall.SetForegroundWindow hwnd], rfl, by simp⟩

theorem AttachThreadInput_only (hwnd : HWND) (a b : DWORD) (f : Bool) (os : WinOs) :
    OnlyRequests hwnd os (AttachThreadInput a b f os).2 := by
  refine ⟨[WinCall.AttachThreadInput a b f], ?_, by simp [WinCall.isForegroundRequest]⟩
  unfold AttachThreadInput WinOs.log
  simp only []
  split_ifs <;> rfl

theorem setForeground_only (hwnd : HWND) (os : WinOs) :
    OnlyRequests hwnd os (setForeground hwnd os).2 := by
  unfold setForeground
  simp only [IsWindow, IsIconic, GetCurrentThreadId, GetWindowThreadProcessId,
    GetForegroundWindow]
  split_ifs <;>
    repeat (first
      | exact OnlyRequests_refl _ _
      | refine OnlyRequests_trans ?_ (AttachThreadInput_only _ _ _ _ _)
      | refine OnlyRequests_trans ?_ (SetForegroundWindow_only _ _)
      | refine OnlyRequests_trans ?_ (ShowWindow_only _ _)
      | refine OnlyRequests_trans ?_
          (OnlyRequests_log _ _ _ (by simp [WinCall.isForegroundRequest])))

theorem enumCalls_no_request (os : WinOs) :
    ∀ c ∈ enumCalls os, c.isForegroundRequest = false := by
  intro c hc
  simp only [enumCalls, List.mem_cons, List.mem_flatMap] at hc
  rcases hc with rfl | ⟨hwnd, _, hc⟩
  · rfl
  · simp only [procCalls, titleCalls, List.mem_cons] at hc
    rcases hc with rfl | hc
    · rfl
    · split_ifs at hc <;> simp at hc <;> rcases hc with rfl | rfl | rfl <;> rfl

/-! ### The title search -/

theorem focusWindowByTitle_eq (titleSubstring : CxxString) (caseSensitive : Bool) (os : WinOs) :
    focusWindowByTitle titleSubstring caseSensitive os
      = focusLoop titleSubstring caseSensitive (enumerateWindows os).1 (enumerateWindows os).2 :=
  rfl

theorem focusLoop_no_match (titleSubstring : CxxString) (caseSensitive : Bool) (os : WinOs) :
    ∀ ws : List WindowInfo, (∀ w ∈ ws, titleMatches titleSubstring caseSensitive w = false) →
      focusLoop titleSubstring caseSensitive ws os = (false, os) := by
  intro ws
  induction ws with
  | nil => intro _; rfl
  | cons w rest ih =>
    intro h
    have hw := h w (List.mem_cons_self _ _)
    have hr := ih (fun v hv => h v (List.mem_cons_of_mem _ hv))
    simp [focusLoop, hw, hr]

theorem focusLoop_first_match (titleSubstring : CxxString) (caseSensitive : Bool) (os : WinOs)
    (w : WindowInfo) (post : List WindowInfo)
    (hw : titleMatches titleSubstring caseSensitive w = true) :
    ∀ pre : List WindowInfo, (∀ v ∈ pre, titleMatches titleSubstring caseSensitive v = false) →
      focusLoop titleSubstring caseSensitive (pre ++ w :: post) os = setForeground w.handle os := by
  intro pre
  induction pre with
  | nil => intro _; simp [focusLoop, hw]
  | cons v rest ih =>
    intro h
    have hv := h v (List.mem_cons_self _ _)
    have hr := ih (fun u hu => h u (List.mem_cons_of_mem _ hu))
    simp [focusLoop, hv, hr]

theorem utf8Encode_ne_nil (cp : Nat) : utf8Encode cp ≠ [] := by
  unfold utf8Encode
  split_ifs <;> simp

theorem utf16ToUtf8_ne_nil (u : Nat) (rest : WString) : utf16ToUtf8 (u :: rest) ≠ [] := by
  cases rest with
  | nil => simpa [utf16ToUtf8] using utf8Encode_ne_nil _
  | cons lo rest =>
    rw [utf16ToUtf8]
    split_ifs <;> simp [utf8Encode_ne_nil]

theorem titleOf_ne_nil (os : WinOs) (hwnd : HWND) (htext : os.text hwnd ≠ [])
    (hnul : ∀ u ∈ os.text hwnd, u ≠ 0) : (titleOf os hwnd).isEmpty = false := by
  have hlen : (os.text hwnd).length ≠ 0 := by
    intro h
    exact htext (List.length_eq_zero.1 h)
  have htw : (os.text hwnd).takeWhile (fun u => u != 0) = os.text hwnd := by
    rw [List.takeWhile_eq_self_iff]
    intro u hu
    simpa using hnul u hu
  simp only [titleOf, getWindowTitle, GetWindowTextLengthW, GetWindowTextW, WinOs.log, hlen,
    if_false, WideCharToMultiByte, Nat.add_sub_cancel, List.take_length, htw]
  rcases ht : os.text hwnd with _ | ⟨u, rest⟩
  · exact absurd ht htext
  · have := utf16ToUtf8_ne_nil u rest
    cases hr : utf16ToUtf8 (u :: rest) with
    | nil => exact absurd hr this
    | cons _ _ => rfl

theorem findFrom_isSome (str : CxxString) :
    ∀ (s : CxxString) (xpos : Nat), (findFrom str s xpos).isSome = true ↔ str <:+: s := by
  intro s
  induction s with
  | nil =>
    intro xpos
    cases str <;> simp [findFrom]
  | cons c t ih =>
    intro xpos
    rw [findFrom, List.infix_cons_iff]
    by_cases hp : str.isPrefixOf (c :: t) = true
    · simp only [hp, if_true, Option.isSome_some, true_iff]
      exact Or.inl (List.isPrefixOf_iff_prefix.1 hp)
    · simp only [hp, if_false, Bool.false_eq_true]
      rw [ih]
      constructor
      · exact Or.inr
      · rintro (h | h)
        · exact absurd (List.isPrefixOf_iff_prefix.2 h) hp
        · exact h

/-- C3. For every sequence of top-level windows the system reports,
`enumerateWindows` returns the records of exactly the windows that are visible
and whose title is not empty, in the reported order: the handles returned are
the reported sequence filtered (nothing re-sorted, dropped or duplicated), so
no returned record has an empty title and each has `isVisible = true`.  A
window whose text is empty is never returned, and a visible window whose text
is non-empty and free of NUL is returned. -/
theorem enumerateWindows_visible_titled (os : WinOs) :
    (enumerateWindows os).1
        = (os.topLevel.filter (fun h => os.visible h && !(titleOf os h).isEmpty)).map
            (fun h => { handle := h, title := titleOf os h, className := classOf os h,
                        isVisible := true })
      ∧ (enumerateWindows os).1.map (fun w => w.handle)
          = os.topLevel.filter (fun h => os.visible h && !(titleOf os h).isEmpty)
      ∧ ((enumerateWindows os).1.map (fun w => w.handle)).Sublist os.topLevel
      ∧ (∀ w ∈ (enumerateWindows os).1,
          w.title ≠ [] ∧ w.isVisible = true ∧ os.visible w.handle = true
            ∧ os.text w.handle ≠ [])
      ∧ (∀ h ∈ os.topLevel, os.visible h = true → os.text h ≠ [] →
          (∀ u ∈ os.text h, u ≠ 0) → h ∈ (enumerateWindows os).1.map (fun w => w.handle)) := by
  have e : (enumerateWindows os).1 = (os.topLevel.filter (qualifies os)).map (infoOf os) := by
    rw [enumerateWindows_eq]
  have hh : (enumerateWindows os).1.map (fun w => w.handle)
      = os.topLevel.filter (qualifies os) := by
    rw [e, List.map_map]
    exact List.map_id _
  refine ⟨e, hh, ?_, ?_, ?_⟩
  · rw [hh]
    exact List.filter_sublist _
  · intro w hw
    rw [e] at hw
    obtain ⟨h, hmem, rfl⟩ := List.mem_map.1 hw
    have hq := (List.mem_filter.1 hmem).2
    simp only [qualifies, Bool.and_eq_true, Bool.not_eq_true'] at hq
    have hne : (infoOf os h).title ≠ [] := by
      intro ht
      have : (titleOf os h).isEmpty = true := by
        show (infoOf os h).title.isEmpty = true
        rw [ht]; rfl
      rw [this] at hq
      exact absurd hq.2 (by simp)
    refine ⟨hne, rfl, hq.1, ?_⟩
    intro htext
    apply hne
    have htext2 : os.text h = [] := htext
    show titleOf os h = []
    simp [titleOf, getWindowTitle, GetWindowTextLengthW, htext2]
  · intro h hmem hv htext hnul
    rw [hh]
    refine List.mem_filter.2 ⟨hmem, ?_⟩
    simp [qualifies, hv, titleOf_ne_nil os h htext hnul]

/-- C2. For every window list the system reports, every substring and both
values of `caseSensitive`: when no enumerated title matches,
`focusWindowByTitle` returns false in the state enumeration left, having made
no foreground request and with the foreground window unchanged; when `w` is
the first enumerated window that matches, the call is exactly
`setForeground` on its handle, so its result is that request's result also
when it fails, and no foreground request is made for any other window. -/
theorem focusWindowByTitle_first_match (titleSubstring : CxxString) (caseSensitive : Bool)
    (os : WinOs) :
    ((∀ w ∈ (enumerateWindows os).1, titleMatches titleSubstring caseSensitive w = false) →
        focusWindowByTitle titleSubstring caseSensitive os = (false, (enumerateWindows os).2)
        ∧ (∃ delta, (focusWindowByTitle titleSubstring caseSensitive os).2.calls
              = os.calls ++ delta ∧ ∀ c ∈ delta, c.isForegroundRequest = false)
        ∧ (focusWindowByTitle titleSubstring caseSensitive os).2.foreground = os.foreground)
    ∧ (∀ (pre : List WindowInfo) (w : WindowInfo) (post : List WindowInfo),
        (enumerateWindows os).1 = pre ++ w :: post →
        (∀ v ∈ pre, titleMatches titleSubstring caseSensitive v = false) →
        titleMatches titleSubstring caseSensitive w = true →
        focusWindowByTitle titleSubstring caseSensitive os
            = setForeground w.handle (enumerateWindows os).2
        ∧ ∃ delta, (focusWindowByTitle titleSubstring caseSensitive os).2.calls
              = os.calls ++ delta
            ∧ ∀ c ∈ delta, c.isForegroundRequest = true
                → c = WinCall.SetForegroundWindow w.handle) := by
  constructor
  · intro hno
    have e : focusWindowByTitle titleSubstring caseSensitive os
        = (false, (enumerateWindows os).2) := by
      rw [focusWindowByTitle_eq]
      exact focusLoop_no_match _ _ _ _ hno
    rw [e]
    refine ⟨rfl, ⟨enumCalls os, ?_, enumCalls_no_request os⟩, ?_⟩
    · rw [enumerateWindows_eq]
    · rw [enumerateWindows_eq]
  · intro pre w post hws hpre hw
    have e : focusWindowByTitle titleSubstring caseSensitive os
        = setForeground w.handle (enumerateWindows os).2 := by
      rw [focusWindowByTitle_eq, hws]
      exact focusLoop_first_match _ _ _ w post hw pre hpre
    refine ⟨e, ?_⟩
    rw [e]
    have h1 : OnlyRequests w.handle os (enumerateWindows os).2 := by
      refine ⟨enumCalls os, by rw [enumerateWindows_eq], ?_⟩
      intro c hc hreq
      rw [enumCalls_no_request os c hc] at hreq
      exact absurd hreq (by simp)
    exact OnlyRequests_trans h1 (setForeground_only _ _)

/-- Witness for C2 on the sample desktop, where both editors match "Editor"
and every request is denied: the result is that of the request for the first
editor, it is false, and no request is made for the second. -/
theorem focusWindowByTitle_first_match_witness :
    (focusWindowByTitle (ascii "Editor") true sampleDesktop
        = setForeground 10 (enumerateWindows sampleDesktop).2
      ∧ ∃ delta, (focusWindowByTitle (ascii "Editor") true sampleDesktop).2.calls
            = sampleDesktop.calls ++ delta
          ∧ ∀ c ∈ delta, c.isForegroundRequest = true → c = WinCall.SetForegroundWindow 10)
    ∧ (focusWindowByTitle (ascii "Editor") true sampleDesktop).1 = false :=
  ⟨(focusWindowByTitle_first_match (ascii "Editor") true sampleDesktop).2 []
      (infoOf sampleDesktop 10) [infoOf sampleDesktop 13] (by decide) (by decide) (by decide),
    by decide⟩

/-- C4. The match used with `caseSensitive = false` holds exactly when the
lowercased substring occurs contiguously in the lowercased title, the match
used with `caseSensitive = true` exactly when the substring occurs verbatim in
the title; and when enumeration yields a single window titled "My Editor"
whose foreground request succeeds, `focusWindowByTitle("my editor", false)`
returns true and `focusWindowByTitle("my editor", true)` returns false. -/
theorem titleMatches_semantics :
    (∀ title substring : CxxString,
        caseInsensitiveSearch title substring = true
          ↔ substring.map tolower <:+: title.map tolower)
    ∧ (∀ (substring : CxxString) (w : WindowInfo),
        titleMatches substring false w = true
          ↔ substring.map tolower <:+: w.title.map tolower)
    ∧ (∀ (substring : CxxString) (w : WindowInfo),
        titleMatches substring true w = true ↔ substring <:+: w.title)
    ∧ (∀ (os : WinOs) (w : WindowInfo),
        (enumerateWindows os).1 = [w] → w.title = ascii "My Editor" →
        (setForeground w.handle (enumerateWindows os).2).1 = true →
        (focusWindowByTitle (ascii "my editor") false os).1 = true
          ∧ (focusWindowByTitle (ascii "my editor") true os).1 = false) := by
  have hci : ∀ title substring : CxxString,
      caseInsensitiveSearch title substring = true
        ↔ substring.map tolower <:+: title.map tolower := by
    intro title substring
    simp only [caseInsensitiveSearch, std_string_find]
    exact findFrom_isSome _ _ _
  refine ⟨hci, ?_, ?_, ?_⟩
  · intro substring w
    simp only [titleMatches, Bool.false_eq_true, if_false]
    exact hci _ _
  · intro substring w
    simp only [titleMatches, if_true, std_string_find]
    exact findFrom_isSome _ _ _
  · intro os w hws ht hfg
    have m1 : titleMatches (ascii "my editor") false w = true := by
      simp only [titleMatches, Bool.false_eq_true, if_false, ht]
      decide
    have m2 : titleMatches (ascii "my editor") true w = false := by
      simp only [titleMatches, if_true, ht]
      decide
    constructor
    · rw [focusWindowByTitle_eq, hws]
      simp only [focusLoop, m1, if_true]
      exact hfg
    · rw [focusWindowByTitle_eq, hws]
      simp [focusLoop, m2]

/-- Witness for C4 on the desktop whose only window is titled "My Editor". -/
theorem titleMatches_semantics_witness :
    (focusWindowByTitle (ascii "my editor") false editorDesktop).1 = true
      ∧ (focusWindowByTitle (ascii "my editor") true editorDesktop).1 = false :=
  titleMatches_semantics.2.2.2 editorDesktop (infoOf editorDesktop 10)
    (by decide) (by decide) (by decide)

/-! ### Teardown -/

/-- C7. For every controller state, `cleanup` logs exactly the releases owed:
one `Release` for each pointer held, the volume interface first, then the
device, then the enumerator, then `CoUninitialize` when COM was initialised,
and nothing for a null pointer; it leaves all four members cleared, so a
second `cleanup` returns the operating-system state it is given, without a
call. -/
theorem cleanup_releases_once_in_order (self : AudioEndpoint) (os : AudioOs) :
    (self.cleanup os).2.calls = os.calls ++ owedReleases self
      ∧ (self.cleanup os).1
          = { deviceEnumerator_ := none, device_ := none, endpointVolume_ := none,
              comInitialized_ := false }
      ∧ owedReleases (self.cleanup os).1 = []
      ∧ ∀ os2 : AudioOs, (self.cleanup os).1.cleanup os2 = ((self.cleanup os).1, os2) := by
  rcases self with ⟨_ | e, _ | d, _ | v, _ | _⟩ <;>
    simp [AudioEndpoint.cleanup, owedReleases, Release, CoUninitialize]

/-! ### Volume and mute on a working system -/

theorem in_range_passes (level : CFloat) (h0 : CFloat.le (.fin 0) level = true)
    (h1 : CFloat.le level (.fin 1) = true) :
    (CFloat.lt level (.fin 0) || CFloat.gt level (.fin 1)) = false := by
  cases level with
  | nan => simp [CFloat.le] at h0
  | negInf => simp [CFloat.le] at h0
  | posInf => simp [CFloat.le] at h1
  | fin q =>
    simp only [CFloat.le, decide_eq_true_eq] at h0 h1
    simp only [CFloat.lt, CFloat.gt, Bool.or_eq_false_iff, decide_eq_false_iff_not, not_lt]
    exact ⟨h0, h1⟩

theorem nextResult_ok (os : AudioOs) (h : AllOk os) :
    FAILED os.nextResult.1 = false ∧ AllOk os.nextResult.2
      ∧ os.nextResult.2.volume = os.volume ∧ os.nextResult.2.mute = os.mute
      ∧ os.nextResult.2.calls = os.calls := by
  unfold AllOk at h ⊢
  have h0 := h
  unfold AudioOs.nextResult
  rcases hs : os.script with _ | ⟨hr, rest⟩
  · exact ⟨rfl, h0, rfl, rfl, rfl⟩
  · rw [hs] at h
    exact ⟨h hr (List.mem_cons_self _ _), fun x hx => h x (List.mem_cons_of_mem _ hx),
      rfl, rfl, rfl⟩

theorem SetMasterVolumeLevelScalar_ok (p : Ptr) (level : CFloat) (os : AudioOs) (h : AllOk os) :
    FAILED (SetMasterVolumeLevelScalar p level os).1 = false
      ∧ AllOk (SetMasterVolumeLevelScalar p level os).2
      ∧ (SetMasterVolumeLevelScalar p level os).2.volume = level
      ∧ (SetMasterVolumeLevelScalar p level os).2.mute = os.mute := by
  obtain ⟨hf, hok, hv, hm, _⟩ := nextResult_ok os h
  refine ⟨?_, ?_, ?_, ?_⟩ <;>
    simp only [SetMasterVolumeLevelScalar, hf, Bool.false_eq_true, if_false] <;>
    first
      | exact hok
      | exact hv
      | exact hm

theorem GetMasterVolumeLevelScalar_ok (p : Ptr) (level : CFloat) (os : AudioOs) (h : AllOk os) :
    FAILED (GetMasterVolumeLevelScalar p level os).1 = false
      ∧ (GetMasterVolumeLevelScalar p level os).2.1 = os.volume
      ∧ AllOk (GetMasterVolumeLevelScalar p level os).2.2
      ∧ (GetMasterVolumeLevelScalar p level os).2.2.volume = os.volume
      ∧ (GetMasterVolumeLevelScalar p level os).2.2.mute = os.mute := by
  obtain ⟨hf, hok, hv, hm, _⟩ := nextResult_ok os h
  refine ⟨?_, ?_, ?_, ?_, ?_⟩ <;>
    simp only [GetMasterVolumeLevelScalar, hf, Bool.false_eq_true, if_false] <;>
    first
      | exact hok
      | exact hv
      | exact hm

theorem SetMute_ok (p : Ptr) (muted : Bool) (os : AudioOs) (h : AllOk os) :
    FAILED (SetMute p muted os).1 = false
      ∧ AllOk (SetMute p muted os).2
      ∧ (SetMute p muted os).2.volume = os.volume
      ∧ (SetMute p muted os).2.mute = muted := by
  obtain ⟨hf, hok, hv, hm, _⟩ := nextResult_ok os h
  refine ⟨?_, ?_, ?_, ?_⟩ <;>
    simp only [SetMute, hf, Bool.false_eq_true, if_false] <;>
    first
      | exact hok
      | exact hv

theorem GetMute_ok (p : Ptr) (muted : Bool) (os : AudioOs) (h : AllOk os) :
    FAILED (GetMute p muted os).1 = false
      ∧ (GetMute p muted os).2.1 = os.mute
      ∧ AllOk (GetMute p muted os).2.2
      ∧ (GetMute p muted os).2.2.volume = os.volume
      ∧ (GetMute p muted os).2.2.mute = os.mute := by
  obtain ⟨hf, hok, hv, hm, _⟩ := nextResult_ok os h
  refine ⟨?_, ?_, ?_, ?_, ?_⟩ <;>
    simp only [GetMute, hf, Bool.false_eq_true, if_false] <;>
    first
      | exact hok
      | exact hv
      | exact hm

theorem setMasterVolume_ok (self : AudioEndpoint) (p : Ptr) (level : CFloat) (os : AudioOs)
    (hinit : self.endpointVolume_ = some p) (h0 : CFloat.le (.fin 0) level = true)
    (h1 : CFloat.le level (.fin 1) = true) (hok : AllOk os) :
    (self.setMasterVolume level os).1 = .ok ()
      ∧ AllOk (self.setMasterVolume level os).2
      ∧ (self.setMasterVolume level os).2.volume = level
      ∧ (self.setMasterVolume level os).2.mute = os.mute := by
  obtain ⟨hf, ha, hv, hm⟩ := SetMasterVolumeLevelScalar_ok p level os hok
  simp only [AudioEndpoint.setMasterVolume, in_range_passes level h0 h1, hinit, hf,
    Bool.false_eq_true, if_false]
  exact ⟨trivial, ha, hv, hm⟩

theorem getMasterVolume_ok (self : AudioEndpoint) (p : Ptr) (os : AudioOs)
    (hinit : self.endpointVolume_ = some p) (hok : AllOk os) :
    (self.getMasterVolume os).1 = .ok os.volume
      ∧ AllOk (self.getMasterVolume os).2
      ∧ (self.getMasterVolume os).2.volume = os.volume
      ∧ (self.getMasterVolume os).2.mute = os.mute := by
  obtain ⟨hf, hr, ha, hv, hm⟩ := GetMasterVolumeLevelScalar_ok p (.fin 0) os hok
  simp only [AudioEndpoint.getMasterVolume, hinit, hf, Bool.false_eq_true, if_false]
  exact ⟨by rw [hr], ha, hv, hm⟩

theorem setMute_ok (self : AudioEndpoint) (p : Ptr) (muted : Bool) (os : AudioOs)
    (hinit : self.endpointVolume_ = some p) (hok : AllOk os) :
    (self.setMute muted os).1 = .ok ()
      ∧ AllOk (self.setMute muted os).2
      ∧ (self.setMute muted os).2.volume = os.volume
      ∧ (self.setMute muted os).2.mute = muted := by
  obtain ⟨hf, ha, hv, hm⟩ := SetMute_ok p muted os hok
  simp only [AudioEndpoint.setMute, hinit, hf, Bool.false_eq_true, if_false]
  exact ⟨trivial, ha, hv, hm⟩

theorem getMute_ok (self : AudioEndpoint) (p : Ptr) (os : AudioOs)
    (hinit : self.endpointVolume_ = some p) (hok : AllOk os) :
    (self.getMute os).1 = .ok os.mute
      ∧ AllOk (self.getMute os).2
      ∧ (self.getMute os).2.volume = os.volume
      ∧ (self.getMute os).2.mute = os.mute := by
  obtain ⟨hf, hr, ha, hv, hm⟩ := GetMute_ok p false os hok
  simp only [AudioEndpoint.getMute, hinit, hf, Bool.false_eq_true, if_false]
  exact ⟨by rw [hr], ha, hv, hm⟩

/-- C8. For every level with `0.0 <= level <= 1.0`, the two bounds included,
on a controller that holds its volume interface and a system whose calls all
succeed, `setMasterVolume(level)` returns without throwing and the
`getMasterVolume()` that follows returns `level`. -/
theorem setMasterVolume_then_getMasterVolume (self : AudioEndpoint) (p : Ptr)
    (level : CFloat) (os : AudioOs)
    (hinit : self.endpointVolume_ = some p) (h0 : CFloat.le (.fin 0) level = true)
    (h1 : CFloat.le level (.fin 1) = true) (hok : AllOk os) :
    (self.setMasterVolume level os).1 = .ok ()
      ∧ (self.getMasterVolume (self.setMasterVolume level os).2).1 = .ok level := by
  obtain ⟨hr, ha, hv, _⟩ := setMasterVolume_ok self p level os hinit h0 h1 hok
  refine ⟨hr, ?_⟩
  rw [(getMasterVolume_ok self p _ hinit ha).1, hv]

/-- Witness for C8 at the upper bound 1.0, on a freshly constructed
controller. -/
theorem setMasterVolume_then_getMasterVolume_witness :
    (readyEndpoint.setMasterVolume (.fin 1) readySystem).1 = .ok ()
      ∧ (readyEndpoint.getMasterVolume
            (readyEndpoint.setMasterVolume (.fin 1) readySystem).2).1 = .ok (.fin 1) :=
  setMasterVolume_then_getMasterVolume readyEndpoint 3 (.fin 1) readySystem rfl
    (by simp [CFloat.le]) (by simp [CFloat.le]) (by unfold AllOk; decide)

/-- C9. For every boolean `b`, on a controller that holds its volume interface
and a system whose calls all succeed, `setMute(b)` returns without throwing,
the `getMute()` that follows returns `b`, and `getMasterVolume()` returns
after the `setMute` call, and again after the `getMute` call, the value it
returns before the `setMute` call. -/
theorem setMute_then_getMute (self : AudioEndpoint) (p : Ptr) (b : Bool) (os : AudioOs)
    (hinit : self.endpointVolume_ = some p) (hok : AllOk os) :
    (self.setMute b os).1 = .ok ()
      ∧ (self.getMute (self.setMute b os).2).1 = .ok b
      ∧ (self.getMasterVolume (self.setMute b os).2).1 = (self.getMasterVolume os).1
      ∧ (self.getMasterVolume (self.getMute (self.setMute b os).2).2).1
          = (self.getMasterVolume os).1
      ∧ (self.getMasterVolume os).1 = .ok os.volume := by
  obtain ⟨hr, ha, hv, hm⟩ := setMute_ok self p b os hinit hok
  obtain ⟨hg, hga, hgv, _⟩ := getMute_ok self p _ hinit ha
  refine ⟨hr, ?_, ?_, ?_, (getMasterVolume_ok self p os hinit hok).1⟩
  · rw [hg, hm]
  · rw [(getMasterVolume_ok self p _ hinit ha).1, (getMasterVolume_ok self p os hinit hok).1, hv]
  · rw [(getMasterVolume_ok self p _ hinit hga).1, (getMasterVolume_ok self p os hinit hok).1,
      hgv, hv]

/-- Witness for C9: muting on a freshly constructed controller. -/
theorem setMute_then_getMute_witness :
    (readyEndpoint.setMute true readySystem).1 = .ok ()
      ∧ (readyEndpoint.getMute (readyEndpoint.setMute true readySystem).2).1 = .ok true
      ∧ (readyEndpoint.getMasterVolume (readyEndpoint.setMute true readySystem).2).1
          = (readyEndpoint.getMasterVolume readySystem).1
      ∧ (readyEndpoint.getMasterVolume
            (readyEndpoint.getMute (readyEndpoint.setMute true readySystem).2).2).1
          = (readyEndpoint.getMasterVolume readySystem).1
      ∧ (readyEndpoint.getMasterVolume readySystem).1 = .ok readySystem.volume :=
  setMute_then_getMute readyEndpoint 3 true readySystem rfl (by unfold AllOk; decide)

/-! ### Construction -/

theorem construction_on_quietSystem :
    (AudioEndpoint.new quietSystem).1 = .ok readyEndpoint
      ∧ readySystem.calls = [OsCall.CoInitializeEx, OsCall.CoCreateInstance,
          OsCall.GetDefaultAudioEndpoint 1, OsCall.Activate 2]
      ∧ readySystem.live = [1, 2, 3] ∧ readySystem.comInit = 1 := by
  refine ⟨rfl, ?_, ?_, ?_⟩ <;> decide

/-- C6, evaluated at the four failing steps.  When COM cannot be initialised
nothing is held.  When the device enumerator cannot be created the constructor
throws and COM stays initialised; when there is no default endpoint the
enumerator reference is held as well; when the volume interface cannot be
activated the device reference is held too.  No `Release` and no
`CoUninitialize` is logged in any of the four. -/
theorem constructor_failure_keeps_acquisitions :
    ((AudioEndpoint.new noComSystem).1
        = .error (.runtime_error "Failed to initialize COM: " (some E_FAIL))
      ∧ (AudioEndpoint.new noComSystem).2.comInit = 0
      ∧ (AudioEndpoint.new noComSystem).2.live = []
      ∧ (AudioEndpoint.new noComSystem).2.calls = [OsCall.CoInitializeEx])
    ∧ ((AudioEndpoint.new noEnumeratorSystem).1
        = .error (.runtime_error "Failed to create device enumerator: " (some E_FAIL))
      ∧ (AudioEndpoint.new noEnumeratorSystem).2.comInit = 1
      ∧ (AudioEndpoint.new noEnumeratorSystem).2.live = []
      ∧ (AudioEndpoint.new noEnumeratorSystem).2.calls
          = [OsCall.CoInitializeEx, OsCall.CoCreateInstance])
    ∧ ((AudioEndpoint.new noDeviceSystem).1
        = .error (.runtime_error "Failed to get default audio endpoint: " (some E_FAIL))
      ∧ (AudioEndpoint.new noDeviceSystem).2.comInit = 1
      ∧ (AudioEndpoint.new noDeviceSystem).2.live = [1]
      ∧ (AudioEndpoint.new noDeviceSystem).2.calls
          = [OsCall.CoInitializeEx, OsCall.CoCreateInstance,
             OsCall.GetDefaultAudioEndpoint 1])
    ∧ ((AudioEndpoint.new noVolumeSystem).1
        = .error (.runtime_error "Failed to activate endpoint volume: " (some E_FAIL))
      ∧ (AudioEndpoint.new noVolumeSystem).2.comInit = 1
      ∧ (AudioEndpoint.new noVolumeSystem).2.live = [1, 2]
      ∧ (AudioEndpoint.new noVolumeSystem).2.calls
          = [OsCall.CoInitializeEx, OsCall.CoCreateInstance,
             OsCall.GetDefaultAudioEndpoint 1, OsCall.Activate 2]) := by
  refine ⟨⟨rfl, ?_, ?_, ?_⟩, ⟨rfl, ?_, ?_, ?_⟩, ⟨rfl, ?_, ?_, ?_⟩, ⟨rfl, ?_, ?_, ?_⟩⟩ <;> decide

/-- C5, evaluated on a build without `_WIN32`.  The module registers three
names, `set_master_volume`, `get_master_volume` and `focus_window`, each bound
to a stub that throws `runtime_error("Not implemented on this platform")`;
`set_mute`, `get_mute` and `enumerate_windows` are not registered, so calling
them finds no attribute, while the Windows build registers all six. -/
theorem stub_module_registers_three_of_six :
    (jarvis_native false).defs.map Prod.fst
        = ["set_master_volume", "get_master_volume", "focus_window"]
      ∧ (jarvis_native true).defs.map Prod.fst
        = ["set_master_volume", "get_master_volume", "set_mute", "get_mute",
           "focus_window", "enumerate_windows"]
      ∧ (jarvis_native false).call "set_mute" = CallOutcome.noSuchAttribute
      ∧ (jarvis_native false).call "get_mute" = CallOutcome.noSuchAttribute
      ∧ (jarvis_native false).call "enumerate_windows" = CallOutcome.noSuchAttribute
      ∧ (∀ name ∈ ["set_master_volume", "get_master_volume", "focus_window"],
          (jarvis_native false).call name
            = CallOutcome.raised (.runtime_error "Not implemented on this platform" none)) := by
  decide

/-! ### Thread-input attachment -/

theorem log_fields (os : WinOs) (c : WinCall) :
    (os.log c).attached = os.attached ∧ (os.log c).currentThread = os.currentThread
      ∧ (os.log c).thread = os.thread ∧ (os.log c).foreground = os.foreground
      ∧ (os.log c).fgScript = os.fgScript ∧ (os.log c).iconic = os.iconic
      ∧ (os.log c).isWindow = os.isWindow ∧ (os.log c).calls = os.calls ++ [c] :=
  ⟨rfl, rfl, rfl, rfl, rfl, rfl, rfl, rfl⟩

theorem ShowWindow_fields (hwnd : HWND) (os : WinOs) :
    (ShowWindow hwnd os).attached = os.attached
      ∧ (ShowWindow hwnd os).currentThread = os.currentThread
      ∧ (ShowWindow hwnd os).thread = os.thread
      ∧ (ShowWindow hwnd os).fgScript = os.fgScript
      ∧ (ShowWindow hwnd os).calls = os.calls ++ [WinCall.ShowWindow hwnd] :=
  ⟨rfl, rfl, rfl, rfl, rfl⟩

theorem SetForegroundWindow_fields (hwnd : HWND) (os : WinOs) :
    (SetForegroundWindow hwnd os).1 = directReturn os
      ∧ (SetForegroundWindow hwnd os).2.attached = os.attached
      ∧ (SetForegroundWindow hwnd os).2.currentThread = os.currentThread
      ∧ (SetForegroundWindow hwnd os).2.thread = os.thread
      ∧ (SetForegroundWindow hwnd os).2.calls = os.calls ++ [WinCall.SetForegroundWindow hwnd] := by
  unfold SetForegroundWindow directReturn
  rcases os.fgScript with _ | ⟨o, rest⟩ <;> exact ⟨rfl, rfl, rfl, rfl, rfl⟩

theorem AttachThreadInput_fields (a b : DWORD) (f : Bool) (os : WinOs) :
    (AttachThreadInput a b f os).2.currentThread = os.currentThread
      ∧ (AttachThreadInput a b f os).2.thread = os.thread
      ∧ (AttachThreadInput a b f os).2.foreground = os.foreground
      ∧ (AttachThreadInput a b f os).2.fgScript = os.fgScript
      ∧ (AttachThreadInput a b f os).2.calls = os.calls ++ [WinCall.AttachThreadInput a b f] := by
  unfold AttachThreadInput WinOs.log
  simp only []
  split_ifs <;> exact ⟨rfl, rfl, rfl, rfl, rfl⟩

theorem attach_then_detach (a b : DWORD) (os1 os2 : WinOs)
    (h : os2.attached = (AttachThreadInput a b true os1).2.attached) :
    (AttachThreadInput a b false os2).2.attached = os1.attached := by
  have h1 : (AttachThreadInput a b true os1).2.attached
      = if a = b then os1.attached else (a, b) :: os1.attached := by
    unfold AttachThreadInput WinOs.log
    simp only [if_true]
    split_ifs <;> rfl
  have h2 : (AttachThreadInput a b false os2).2.attached
      = if a = b then os2.attached
        else if (a, b) ∈ os2.attached then os2.attached.erase (a, b) else os2.attached := by
    unfold AttachThreadInput WinOs.log
    simp only [Bool.false_eq_true, if_false]
    split_ifs <;> rfl
  rw [h2, h, h1]
  by_cases hab : a = b
  · rw [if_pos hab, if_pos hab]
  · rw [if_neg hab, if_neg hab, if_pos (List.mem_cons_self _ _), List.erase_cons_head]

theorem setForeground_live (hwnd : HWND) (os : WinOs) (h : os.isWindow hwnd = true) :
    ∃ osE : WinOs,
      setForeground hwnd os = (osE.foreground == hwnd, osE.log WinCall.GetForegroundWindow)
      ∧ osE.attached = os.attached
      ∧ osE.calls ++ [WinCall.GetForegroundWindow] = os.calls ++ setForegroundCalls hwnd os := by
  unfold setForeground
  simp only [IsWindow, IsIconic, GetCurrentThreadId, GetWindowThreadProcessId,
    GetForegroundWindow, h, Bool.not_true, Bool.false_eq_true, if_false]
  generalize hB : (if (os.log (WinCall.IsWindow hwnd)).iconic hwnd = true then
      ShowWindow hwnd ((os.log (WinCall.IsWindow hwnd)).log (WinCall.IsIconic hwnd))
    else (os.log (WinCall.IsWindow hwnd)).log (WinCall.IsIconic hwnd)) = osB
  have fB : osB.attached = os.attached ∧ osB.currentThread = os.currentThread
      ∧ osB.thread = os.thread ∧ osB.fgScript = os.fgScript
      ∧ osB.calls = os.calls ++ ([WinCall.IsWindow hwnd, WinCall.IsIconic hwnd]
          ++ (if os.iconic hwnd = true then [WinCall.ShowWindow hwnd] else [])) := by
    rw [← hB]
    by_cases hi : os.iconic hwnd = true
    · have hi2 : (os.log (WinCall.IsWindow hwnd)).iconic hwnd = true := hi
      rw [if_pos hi2, if_pos hi]
      refine ⟨rfl, rfl, rfl, rfl, ?_⟩
      simp [ShowWindow, WinOs.log]
    · have hi2 : ¬ (os.log (WinCall.IsWindow hwnd)).iconic hwnd = true := hi
      rw [if_neg hi2, if_neg hi]
      refine ⟨rfl, rfl, rfl, rfl, ?_⟩
      simp [WinOs.log]
  obtain ⟨fBa, fBc, fBt, fBs, fBl⟩ := fB
  have hdr : directReturn osB = directReturn os := by
    unfold directReturn
    rw [fBs]
  obtain ⟨d1, d2, d3, d4, d5⟩ := SetForegroundWindow_fields hwnd osB
  generalize SetForegroundWindow hwnd osB = d at d1 d2 d3 d4 d5 ⊢
  rcases d with ⟨ok, osC⟩
  simp only [] at d1 d2 d3 d4 d5 ⊢
  rw [hdr] at d1
  cases ok
  · simp only [Bool.not_false, if_true]
    refine ⟨_, rfl, ?_, ?_⟩
    · have hat := attach_then_detach osC.currentThread
        (((osC.log WinCall.GetCurrentThreadId)).thread hwnd)
        ((osC.log WinCall.GetCurrentThreadId).log (WinCall.GetWindowThreadProcessId hwnd))
        (SetForegroundWindow hwnd (AttachThreadInput osC.currentThread
          (((osC.log WinCall.GetCurrentThreadId)).thread hwnd) true
          ((osC.log WinCall.GetCurrentThreadId).log
            (WinCall.GetWindowThreadProcessId hwnd))).2).2
        (SetForegroundWindow_fields _ _).2.1
      rw [hat]
      show osC.attached = _
      rw [d2, fBa]
    · rw [(AttachThreadInput_fields _ _ _ _).2.2.2.2, (SetForegroundWindow_fields _ _).2.2.2.2,
        (AttachThreadInput_fields _ _ _ _).2.2.2.2]
      have hc : (osC.log WinCall.GetCurrentThreadId).thread hwnd = os.thread hwnd := by
        show osC.thread hwnd = os.thread hwnd
        rw [d4, fBt]
      rw [hc, d3, fBc]
      show ((((osC.calls ++ _) ++ _) ++ _) ++ _) ++ _ ++ _ = _
      rw [d5, fBl]
      simp [setForegroundCalls, ← d1]
  · simp only [Bool.not_true, Bool.false_eq_true, if_false]
    refine ⟨_, rfl, ?_, ?_⟩
    · rw [d2, fBa]
    · rw [d5, fBl]
      simp [setForegroundCalls, ← d1]

/-- C11. For every window handle and every state of the window system: when
the handle is not a live window, `setForeground` returns false and the state
is the one it was given with only the `IsWindow` query logged.  Otherwise,
whatever the direct and the fallback request do, the thread-input attachments
after the call are those from before it, the pair of the calling thread and
the window's thread included; the calls made are exactly
`setForegroundCalls`, in which the fallback, taken when the direct request
returns `FALSE`, makes one attach and, after the second request, one detach of
that same pair; and the returned boolean says whether the window is the
foreground window after the attempt. -/
theorem setForeground_frame (hwnd : HWND) (os : WinOs) :
    (os.isWindow hwnd = false →
        setForeground hwnd os
          = (false, { os with calls := os.calls ++ [WinCall.IsWindow hwnd] }))
    ∧ (os.isWindow hwnd = true →
        (setForeground hwnd os).2.attached = os.attached
        ∧ (fallbackPair hwnd os ∈ (setForeground hwnd os).2.attached
            ↔ fallbackPair hwnd os ∈ os.attached)
        ∧ (setForeground hwnd os).2.calls = os.calls ++ setForegroundCalls hwnd os
        ∧ (setForegroundCalls hwnd os).filter WinCall.isAttach
            = (if directReturn os = true then []
               else [WinCall.AttachThreadInput os.currentThread (os.thread hwnd) true,
                     WinCall.AttachThreadInput os.currentThread (os.thread hwnd) false])
        ∧ (setForeground hwnd os).1 = ((setForeground hwnd os).2.foreground == hwnd)) := by
  constructor
  · intro h
    simp [setForeground, IsWindow, WinOs.log, h]
  · intro h
    obtain ⟨osE, he, hatt, hcalls⟩ := setForeground_live hwnd os h
    have h2 : (setForeground hwnd os).2.attached = os.attached := by
      rw [he]
      exact hatt
    refine ⟨h2, by rw [h2], ?_, ?_, ?_⟩
    · rw [he]
      exact hcalls
    · unfold setForegroundCalls
      by_cases hi : os.iconic hwnd = true <;> by_cases hd : directReturn os = true <;>
        simp [hi, hd, WinCall.isAttach]
    · rw [he]
      rfl

/-- Witness for C11 on the sample desktop at a moment when the calling thread
is already attached to the thread of window 10: handle 5 is no window; window
10 is live, minimized and denied the foreground, the fallback runs, and the
prior attachment is still there after the call. -/
theorem setForeground_frame_witness :
    setForeground 5 attachedDesktop
        = (false, { attachedDesktop with
            calls := attachedDesktop.calls ++ [WinCall.IsWindow 5] })
      ∧ (setForeground 10 attachedDesktop).2.attached = attachedDesktop.attached
      ∧ (setForegroundCalls 10 attachedDesktop).filter WinCall.isAttach
          = [WinCall.AttachThreadInput 1 110 true, WinCall.AttachThreadInput 1 110 false]
      ∧ (setForeground 10 attachedDesktop).1 = false :=
  ⟨(setForeground_frame 5 attachedDesktop).1 (by decide),
    ((setForeground_frame 10 attachedDesktop).2 (by decide)).1,
    by decide, by decide⟩

end jarvis
